import Mathlib

/-!
Shallow embedding of the Modbus TCP server core
(`src-tauri/src/modbus.rs` and `src-tauri/src/lib.rs`).

Machine integers (`u16`, `usize`) are modelled as `Nat`; the Rust source
performs its bounds arithmetic after casting `u16` to `usize`
(`addr as usize + qty as usize`), which cannot overflow for the sizes
involved, so plain `Nat` addition is the exact denotation.  Fallible Rust
functions returning `Result<T, ExceptionCode>` become
`Except ExceptionCode T`; in-place slice mutation becomes a returned list.
Event emission (`app.emit`) is modelled as an explicit list of emitted
payloads.
-/

set_option maxRecDepth 8000

namespace Modbus

/-- `tokio_modbus::ExceptionCode`, restricted to the codes this server uses. -/
inductive ExceptionCode where
  | illegalDataAddress
  | illegalFunction
  | serverDeviceFailure
  deriving DecidableEq, Repr

/-- `pub const STORE_SIZE: usize = 1000;` -/
def STORE_SIZE : Nat := 1000

/-- `ModbusStore`: four parallel data areas (modbus.rs lines 13-19). -/
structure ModbusStore where
  coils : List Bool
  discrete_inputs : List Bool
  input_registers : List Nat
  holding_registers : List Nat
  deriving DecidableEq, Repr

/-- `ModbusStore::new(size)` (modbus.rs lines 22-29). -/
def ModbusStore.new (size : Nat) : ModbusStore :=
  { coils := List.replicate size false
    discrete_inputs := List.replicate size false
    input_registers := List.replicate size 0
    holding_registers := List.replicate size 0 }

/-- All four areas of the store have length `n` (the constructor invariant). -/
def ModbusStore.sized (s : ModbusStore) (n : Nat) : Prop :=
  s.coils.length = n ∧ s.discrete_inputs.length = n ∧
  s.input_registers.length = n ∧ s.holding_registers.length = n

instance (s : ModbusStore) (n : Nat) : Decidable (s.sized n) := by
  unfold ModbusStore.sized; infer_instance

/-- `DataArea` enum (modbus.rs lines 32-42). -/
inductive DataArea where
  | coils
  | discreteInputs
  | inputRegisters
  | holdingRegisters
  deriving DecidableEq, Repr

/-- `Request` variants handled by `handle_request` (the `tokio_modbus`
request type, restricted to the arms of the match in modbus.rs 119-194).
`u16` fields are `Nat`. -/
inductive Request where
  | readCoils (addr qty : Nat)
  | readDiscreteInputs (addr qty : Nat)
  | readInputRegisters (addr qty : Nat)
  | readHoldingRegisters (addr qty : Nat)
  | writeSingleCoil (addr : Nat) (coil : Bool)
  | writeMultipleCoils (addr : Nat) (coils : List Bool)
  | writeSingleRegister (addr word : Nat)
  | writeMultipleRegisters (addr : Nat) (words : List Nat)
  | maskWriteRegister (addr andMask orMask : Nat)
  | readWriteMultipleRegisters (readAddr readQty writeAddr : Nat) (words : List Nat)
  | reportServerId
  | readDeviceIdentification (a b : Nat)
  | custom (code : Nat) (data : List Nat)
  deriving DecidableEq, Repr

/-- `SlaveRequest`: a request together with the unit id it addresses. -/
structure SlaveRequest where
  slave : Nat
  request : Request
  deriving DecidableEq, Repr

/-- `Response` variants produced by `handle_request`. -/
inductive Response where
  | readCoils (values : List Bool)
  | readDiscreteInputs (values : List Bool)
  | readInputRegisters (values : List Nat)
  | readHoldingRegisters (values : List Nat)
  | writeSingleCoil (addr : Nat) (coil : Bool)
  | writeMultipleCoils (addr count : Nat)
  | writeSingleRegister (addr word : Nat)
  | writeMultipleRegisters (addr count : Nat)
  | maskWriteRegister (addr andMask orMask : Nat)
  | readWriteMultipleRegisters (values : List Nat)
  deriving DecidableEq, Repr

/-- `UpdatePayload` (modbus.rs lines 88-93): payload of a
`modbus://updated` (data-changed) event. -/
structure UpdatePayload where
  area : DataArea
  offset : Nat
  values : List Nat
  deriving DecidableEq, Repr

/-- `bools_to_u16` (modbus.rs lines 271-273). -/
def bools_to_u16 (values : List Bool) : List Nat :=
  values.map (fun value => if value then 1 else 0)

/-- `range(len, addr, qty)` (modbus.rs lines 262-269): the shared bounds
check of the read paths.  `usize` arithmetic, so no 16-bit wrap. -/
def range (len addr qty : Nat) : Except ExceptionCode (Nat × Nat) :=
  if addr + qty > len then .error .illegalDataAddress
  else .ok (addr, addr + qty)

/-- `slice_bool` (modbus.rs lines 206-209): `values[start..end].to_vec()`. -/
def slice_bool (values : List Bool) (addr qty : Nat) :
    Except ExceptionCode (List Bool) :=
  match range values.length addr qty with
  | .error e => .error e
  | .ok (s, e) => .ok ((values.drop s).take (e - s))

/-- `slice_u16` (modbus.rs lines 211-214). -/
def slice_u16 (values : List Nat) (addr qty : Nat) :
    Except ExceptionCode (List Nat) :=
  match range values.length addr qty with
  | .error e => .error e
  | .ok (s, e) => .ok ((values.drop s).take (e - s))

/-- `read_single_u16` (modbus.rs lines 216-222): `values.get(index)`. -/
def read_single_u16 (values : List Nat) (addr : Nat) :
    Except ExceptionCode Nat :=
  match values[addr]? with
  | some v => .ok v
  | none => .error .illegalDataAddress

/-- `write_bool` (modbus.rs lines 224-231): checked single-cell write. -/
def write_bool (values : List Bool) (addr : Nat) (value : Bool) :
    Except ExceptionCode (List Bool) :=
  if addr ≥ values.length then .error .illegalDataAddress
  else .ok (values.set addr value)

/-- `write_bools` (modbus.rs lines 233-241): checked range write, returns
the new contents and the count written (`data.len() as u16`). -/
def write_bools (values : List Bool) (addr : Nat) (data : List Bool) :
    Except ExceptionCode (List Bool × Nat) :=
  if addr + data.length > values.length then .error .illegalDataAddress
  else .ok (values.take addr ++ data ++ values.drop (addr + data.length),
            data.length % 65536)

/-- `write_u16` (modbus.rs lines 243-250). -/
def write_u16 (values : List Nat) (addr : Nat) (value : Nat) :
    Except ExceptionCode (List Nat) :=
  if addr ≥ values.length then .error .illegalDataAddress
  else .ok (values.set addr value)

/-- `write_u16s` (modbus.rs lines 252-260). -/
def write_u16s (values : List Nat) (addr : Nat) (data : List Nat) :
    Except ExceptionCode (List Nat × Nat) :=
  if addr + data.length > values.length then .error .illegalDataAddress
  else .ok (values.take addr ++ data ++ values.drop (addr + data.length),
            data.length % 65536)

instance {ε α : Type} [DecidableEq ε] [DecidableEq α] :
    DecidableEq (Except ε α) := fun a b =>
  match a, b with
  | .ok a, .ok b =>
    if h : a = b then .isTrue (by rw [h])
    else .isFalse (fun hc => h (Except.ok.inj hc))
  | .ok _, .error _ => .isFalse (fun hc => Except.noConfusion hc)
  | .error _, .ok _ => .isFalse (fun hc => Except.noConfusion hc)
  | .error a, .error b =>
    if h : a = b then .isTrue (by rw [h])
    else .isFalse (fun hc => h (Except.error.inj hc))

/-- Outcome of dispatching one request: the protocol result, the store
after the call, and the `modbus://updated` events emitted during it. -/
structure DispatchOutcome where
  result : Except ExceptionCode Response
  store : ModbusStore
  events : List UpdatePayload
  deriving DecidableEq, Repr

/-- The `match req.request` body of `handle_request`
(modbus.rs lines 119-194), after the unit-id guard has passed.
Each arm performs the store operation, emits its event on success, and
wraps the response.  Lock acquisition never fails in the sequential
denotation, so the `ServerDeviceFailure` mapping of a poisoned lock does
not arise. -/
def dispatch_request (s : ModbusStore) (req : Request) : DispatchOutcome :=
  match req with
  | .readCoils addr qty =>
    match slice_bool s.coils addr qty with
    | .error e => ⟨.error e, s, []⟩
    | .ok values => ⟨.ok (.readCoils values), s, []⟩
  | .readDiscreteInputs addr qty =>
    match slice_bool s.discrete_inputs addr qty with
    | .error e => ⟨.error e, s, []⟩
    | .ok values => ⟨.ok (.readDiscreteInputs values), s, []⟩
  | .readInputRegisters addr qty =>
    match slice_u16 s.input_registers addr qty with
    | .error e => ⟨.error e, s, []⟩
    | .ok values => ⟨.ok (.readInputRegisters values), s, []⟩
  | .readHoldingRegisters addr qty =>
    match slice_u16 s.holding_registers addr qty with
    | .error e => ⟨.error e, s, []⟩
    | .ok values => ⟨.ok (.readHoldingRegisters values), s, []⟩
  | .writeSingleCoil addr coil =>
    match write_bool s.coils addr coil with
    | .error e => ⟨.error e, s, []⟩
    | .ok coils =>
      ⟨.ok (.writeSingleCoil addr coil), { s with coils := coils },
       [⟨.coils, addr, [if coil then 1 else 0]⟩]⟩
  | .writeMultipleCoils addr data =>
    match write_bools s.coils addr data with
    | .error e => ⟨.error e, s, []⟩
    | .ok (coils, written) =>
      ⟨.ok (.writeMultipleCoils addr written), { s with coils := coils },
       [⟨.coils, addr, bools_to_u16 data⟩]⟩
  | .writeSingleRegister addr word =>
    match write_u16 s.holding_registers addr word with
    | .error e => ⟨.error e, s, []⟩
    | .ok regs =>
      ⟨.ok (.writeSingleRegister addr word),
       { s with holding_registers := regs },
       [⟨.holdingRegisters, addr, [word]⟩]⟩
  | .writeMultipleRegisters addr words =>
    match write_u16s s.holding_registers addr words with
    | .error e => ⟨.error e, s, []⟩
    | .ok (regs, written) =>
      ⟨.ok (.writeMultipleRegisters addr written),
       { s with holding_registers := regs },
       [⟨.holdingRegisters, addr, words⟩]⟩
  | .maskWriteRegister addr andMask orMask =>
    match read_single_u16 s.holding_registers addr with
    | .error e => ⟨.error e, s, []⟩
    | .ok current =>
      let next := (current &&& andMask) ||| orMask
      match write_u16 s.holding_registers addr next with
      | .error e => ⟨.error e, s, []⟩
      | .ok regs =>
        ⟨.ok (.maskWriteRegister addr andMask orMask),
         { s with holding_registers := regs },
         [⟨.holdingRegisters, addr, [next]⟩]⟩
  | .readWriteMultipleRegisters readAddr readQty writeAddr words =>
    match write_u16s s.holding_registers writeAddr words with
    | .error e => ⟨.error e, s, []⟩
    | .ok (regs, _) =>
      let s1 : ModbusStore := { s with holding_registers := regs }
      let evs : List UpdatePayload := [⟨.holdingRegisters, writeAddr, words⟩]
      match slice_u16 s1.holding_registers readAddr readQty with
      | .error e => ⟨.error e, s1, evs⟩
      | .ok values => ⟨.ok (.readWriteMultipleRegisters values), s1, evs⟩
  | .reportServerId => ⟨.error .illegalFunction, s, []⟩
  | .readDeviceIdentification _ _ => ⟨.error .illegalFunction, s, []⟩
  | .custom _ _ => ⟨.error .illegalFunction, s, []⟩

/-- Outcome of `handle_request`: `Ok(None)` models a silently ignored
request (no response sent). -/
structure HandleOutcome where
  result : Except ExceptionCode (Option Response)
  store : ModbusStore
  events : List UpdatePayload
  deriving DecidableEq, Repr

/-- `handle_request` (modbus.rs lines 109-195): the unit-id guard
(lines 115-117) followed by the dispatch match. -/
def handle_request (unit_id : Nat) (req : SlaveRequest) (s : ModbusStore) :
    HandleOutcome :=
  if unit_id ≠ 0 ∧ req.slave ≠ unit_id then ⟨.ok none, s, []⟩
  else
    let o := dispatch_request s req.request
    ⟨o.result.map some, o.store, o.events⟩

/-! Helper lemmas about the splice produced by a successful range write
(`values[start..end].copy_from_slice(data)`). -/

theorem splice_length {α : Type} (values data : List α) (addr : Nat)
    (h : addr + data.length ≤ values.length) :
    (values.take addr ++ data ++ values.drop (addr + data.length)).length =
      values.length := by
  simp [List.length_append, List.length_take, List.length_drop]
  omega

theorem splice_slice {α : Type} (values data : List α) (addr : Nat)
    (h : addr + data.length ≤ values.length) :
    ((values.take addr ++ data ++ values.drop (addr + data.length)).drop
        addr).take data.length = data := by
  have hlen : (values.take addr).length = addr :=
    List.length_take_of_le (by omega)
  rw [List.append_assoc, List.drop_left' hlen, List.take_left]

theorem slice_u16_eval (values : List Nat) (addr qty : Nat)
    (h : addr + qty ≤ values.length) :
    slice_u16 values addr qty = .ok ((values.drop addr).take qty) := by
  rw [slice_u16, range, if_neg (by omega)]
  simp

theorem slice_bool_eval (values : List Bool) (addr qty : Nat)
    (h : addr + qty ≤ values.length) :
    slice_bool values addr qty = .ok ((values.drop addr).take qty) := by
  rw [slice_bool, range, if_neg (by omega)]
  simp

/-- C1: for every data area and every `addr`, `qty` with
`addr + qty > N` (store size, `usize` arithmetic), the range read
(`slice_bool` / `slice_u16`) and the range write (`write_bools` /
`write_u16s`) both fail with `IllegalDataAddress`, and at the level of
`handle_request` the failing call leaves the store completely unmodified
and emits no event. -/
theorem out_of_range_read_write_fail
    (N : Nat) (s : ModbusStore) (hs : s.sized N)
    (addr qty : Nat) (h : addr + qty > N) :
    slice_bool s.coils addr qty = .error .illegalDataAddress ∧
    slice_bool s.discrete_inputs addr qty = .error .illegalDataAddress ∧
    slice_u16 s.input_registers addr qty = .error .illegalDataAddress ∧
    slice_u16 s.holding_registers addr qty = .error .illegalDataAddress ∧
    (∀ data : List Bool, data.length = qty →
      write_bools s.coils addr data = .error .illegalDataAddress ∧
      write_bools s.discrete_inputs addr data = .error .illegalDataAddress) ∧
    (∀ data : List Nat, data.length = qty →
      write_u16s s.input_registers addr data = .error .illegalDataAddress ∧
      write_u16s s.holding_registers addr data = .error .illegalDataAddress) ∧
    (∀ u slv : Nat, u = 0 ∨ slv = u → ∀ req : Request,
      (req = .readCoils addr qty ∨ req = .readDiscreteInputs addr qty ∨
       req = .readInputRegisters addr qty ∨
       req = .readHoldingRegisters addr qty ∨
       (∃ data : List Bool, data.length = qty ∧
          req = .writeMultipleCoils addr data) ∨
       (∃ data : List Nat, data.length = qty ∧
          req = .writeMultipleRegisters addr data)) →
      handle_request u ⟨slv, req⟩ s =
        ⟨.error .illegalDataAddress, s, []⟩) := by
  obtain ⟨h1, h2, h3, h4⟩ := hs
  have hb : ∀ values : List Bool, values.length = N →
      slice_bool values addr qty = .error .illegalDataAddress := by
    intro values hv
    simp [slice_bool, range, hv, h]
  have hu16 : ∀ values : List Nat, values.length = N →
      slice_u16 values addr qty = .error .illegalDataAddress := by
    intro values hv
    simp [slice_u16, range, hv, h]
  have hwb : ∀ (values data : List Bool), values.length = N →
      data.length = qty → write_bools values addr data =
        .error .illegalDataAddress := by
    intro values data hv hd
    simp [write_bools, hv, hd, h]
  have hwu : ∀ (values data : List Nat), values.length = N →
      data.length = qty → write_u16s values addr data =
        .error .illegalDataAddress := by
    intro values data hv hd
    simp [write_u16s, hv, hd, h]
  refine ⟨hb _ h1, hb _ h2, hu16 _ h3, hu16 _ h4,
          fun data hd => ⟨hwb _ _ h1 hd, hwb _ _ h2 hd⟩,
          fun data hd => ⟨hwu _ _ h3 hd, hwu _ _ h4 hd⟩, ?_⟩
  intro u slv hu req hreq
  have hguard : ¬(u ≠ 0 ∧ slv ≠ u) := by tauto
  rcases hreq with rfl | rfl | rfl | rfl | ⟨data, hd, rfl⟩ | ⟨data, hd, rfl⟩
  · simp [handle_request, hguard, dispatch_request, hb _ h1, Except.map]
  · simp [handle_request, hguard, dispatch_request, hb _ h2, Except.map]
  · simp [handle_request, hguard, dispatch_request, hu16 _ h3, Except.map]
  · simp [handle_request, hguard, dispatch_request, hu16 _ h4, Except.map]
  · simp [handle_request, hguard, dispatch_request, hwb _ _ h1 hd,
      Except.map]
  · simp [handle_request, hguard, dispatch_request, hwu _ _ h4 hd,
      Except.map]

/-- C1 witness. -/
theorem out_of_range_read_write_fail_witness :
    (ModbusStore.new 4).sized 4 ∧ 3 + 2 > 4 ∧
    slice_u16 (ModbusStore.new 4).holding_registers 3 2 =
      .error .illegalDataAddress := by
  refine ⟨by decide, by decide, ?_⟩
  exact (out_of_range_read_write_fail 4 (ModbusStore.new 4) (by decide)
    3 2 (by decide)).2.2.2.1

/-- C2: for every area container and every `addr`, `qty = data.length`
with `addr + qty ≤ length`, a range write of `data` at `addr` followed by
a range read of `qty` items at the same `addr` returns exactly `data`
(hence a sequence of length `qty`), and the write preserves the container
length.  The register (`write_u16s` / `slice_u16`) and bit
(`write_bools` / `slice_bool`) code paths are both covered; the four
areas are instances of these two. -/
theorem write_then_read_round_trip (addr : Nat) :
    (∀ values data : List Nat, addr + data.length ≤ values.length →
      ∃ next : List Nat,
        write_u16s values addr data = .ok (next, data.length % 65536) ∧
        slice_u16 next addr data.length = .ok data ∧
        next.length = values.length) ∧
    (∀ values data : List Bool, addr + data.length ≤ values.length →
      ∃ next : List Bool,
        write_bools values addr data = .ok (next, data.length % 65536) ∧
        slice_bool next addr data.length = .ok data ∧
        next.length = values.length) := by
  constructor
  · intro values data h
    refine ⟨values.take addr ++ data ++ values.drop (addr + data.length),
      ?_, ?_, splice_length values data addr h⟩
    · rw [write_u16s, if_neg (by omega)]
    · rw [slice_u16_eval _ _ _
        (by rw [splice_length values data addr h]; omega)]
      rw [splice_slice values data addr h]
  · intro values data h
    refine ⟨values.take addr ++ data ++ values.drop (addr + data.length),
      ?_, ?_, splice_length values data addr h⟩
    · rw [write_bools, if_neg (by omega)]
    · rw [slice_bool_eval _ _ _
        (by rw [splice_length values data addr h]; omega)]
      rw [splice_slice values data addr h]

/-- C2 witness. -/
theorem write_then_read_round_trip_witness :
    1 + 2 ≤ 4 ∧
    ∃ next : List Nat,
      write_u16s [9, 9, 9, 9] 1 [5, 6] = .ok (next, 2) ∧
      slice_u16 next 1 2 = .ok [5, 6] ∧
      next.length = 4 := by
  exact ⟨by decide, (write_then_read_round_trip 1).1 [9, 9, 9, 9] [5, 6]
    (by decide)⟩

/-- C3: for every in-bounds holding-register address, Mask Write Register
replaces the current value with `(current &&& andMask) ||| orMask`,
echoes `(addr, andMask, orMask)` in the response, and emits one event
carrying the new value. -/
theorem mask_write_register_semantics
    (s : ModbusStore) (u slv addr andMask orMask : Nat)
    (hu : u = 0 ∨ slv = u) (h : addr < s.holding_registers.length) :
    handle_request u ⟨slv, .maskWriteRegister addr andMask orMask⟩ s =
      ⟨.ok (some (.maskWriteRegister addr andMask orMask)),
       { s with holding_registers := s.holding_registers.set addr ((s.holding_registers[addr] &&& andMask) ||| orMask) },
       [⟨.holdingRegisters, addr,
         [(s.holding_registers[addr] &&& andMask) ||| orMask]⟩]⟩ := by
  have hguard : ¬(u ≠ 0 ∧ slv ≠ u) := by tauto
  have hget : s.holding_registers[addr]? = some s.holding_registers[addr] :=
    (List.getElem?_eq_some_getElem_iff _ _ h).mpr trivial
  have hw : ¬(addr ≥ s.holding_registers.length) := Nat.not_le.mpr h
  simp [handle_request, hguard, dispatch_request, read_single_u16, hget,
    write_u16, hw, Except.map]

/-- C3 witness: with current `0b1010`, `andMask = 0b1100`,
`orMask = 0b0001`, the stored result is `0b1001 = 9`. -/
theorem mask_write_register_semantics_witness :
    handle_request 0 ⟨1, .maskWriteRegister 0 12 1⟩
        (ModbusStore.mk [] [] [] [10]) =
      ⟨.ok (some (.maskWriteRegister 0 12 1)), ModbusStore.mk [] [] [] [9],
       [⟨.holdingRegisters, 0, [9]⟩]⟩ := by
  have := mask_write_register_semantics (ModbusStore.mk [] [] [] [10])
    0 1 0 12 1 (Or.inl rfl) (by decide)
  simpa using this

/-- C4: for a Read/Write Multiple Registers request with both ranges in
bounds, the write is applied to the holding registers before the read is
taken, the response holds the post-write read values, and when the read
range lies inside the write range those values come from the words just
written. -/
theorem read_write_multiple_registers_write_first
    (s : ModbusStore) (u slv readAddr readQty writeAddr : Nat)
    (words : List Nat) (hu : u = 0 ∨ slv = u)
    (hw : writeAddr + words.length ≤ s.holding_registers.length)
    (hr : readAddr + readQty ≤ s.holding_registers.length) :
    (handle_request u
        ⟨slv, .readWriteMultipleRegisters readAddr readQty writeAddr words⟩
        s =
      ⟨.ok (some (.readWriteMultipleRegisters
          (((s.holding_registers.take writeAddr ++ words ++
             s.holding_registers.drop (writeAddr + words.length)).drop
               readAddr).take readQty))),
       { s with holding_registers :=
           s.holding_registers.take writeAddr ++ words ++
           s.holding_registers.drop (writeAddr + words.length) },
       [⟨.holdingRegisters, writeAddr, words⟩]⟩) ∧
    (writeAddr ≤ readAddr → readAddr + readQty ≤ writeAddr + words.length →
      ((s.holding_registers.take writeAddr ++ words ++
        s.holding_registers.drop (writeAddr + words.length)).drop
          readAddr).take readQty =
        (words.drop (readAddr - writeAddr)).take readQty) := by
  have hguard : ¬(u ≠ 0 ∧ slv ≠ u) := by tauto
  have hlen := splice_length s.holding_registers words writeAddr hw
  constructor
  · have h1 : write_u16s s.holding_registers writeAddr words =
        .ok (s.holding_registers.take writeAddr ++ words ++
             s.holding_registers.drop (writeAddr + words.length),
             words.length % 65536) := by
      rw [write_u16s, if_neg (by omega)]
    have h2 : slice_u16
        (s.holding_registers.take writeAddr ++
          (words ++ s.holding_registers.drop (writeAddr + words.length)))
        readAddr readQty =
      .ok (((s.holding_registers.take writeAddr ++
          (words ++ s.holding_registers.drop
            (writeAddr + words.length))).drop readAddr).take readQty) := by
      apply slice_u16_eval
      rw [← List.append_assoc, hlen]; omega
    simp [handle_request, hguard, dispatch_request, h1, h2, Except.map]
  · intro hle hin
    have hlenA : (s.holding_registers.take writeAddr).length = writeAddr :=
      List.length_take_of_le (by omega)
    rw [List.append_assoc, List.drop_append_eq_append_drop, hlenA,
      List.drop_eq_nil_of_le (by rw [hlenA]; omega), List.nil_append,
      List.drop_append_eq_append_drop,
      List.take_append_of_le_length
        (by rw [List.length_drop]; omega)]

/-- C4 witness: write `[7, 8]` at 0 while reading 2 registers at 1 in a
4-register store; the returned values `[8, 0]` include the just-written
register. -/
theorem read_write_multiple_registers_write_first_witness :
    handle_request 0 ⟨1, .readWriteMultipleRegisters 1 2 0 [7, 8]⟩
        (ModbusStore.mk [] [] [] [0, 0, 0, 0]) =
      ⟨.ok (some (.readWriteMultipleRegisters [8, 0])),
       ModbusStore.mk [] [] [] [7, 8, 0, 0],
       [⟨.holdingRegisters, 0, [7, 8]⟩]⟩ := by
  have := (read_write_multiple_registers_write_first
    (ModbusStore.mk [] [] [] [0, 0, 0, 0]) 0 1 1 2 0 [7, 8]
    (Or.inl rfl) (by decide) (by decide)).1
  simpa using this

/-- C5: a decoded request whose unit id differs from a non-zero
configured unit id is silently ignored (`Ok(None)`, store untouched, no
event), while configured unit id `0` accepts every request: the result is
never the silent `Ok(None)` and does not depend on the request's unit
id. -/
theorem unit_id_filter_behavior (u : Nat) (r : SlaveRequest)
    (s : ModbusStore) :
    (u ≠ 0 → r.slave ≠ u → handle_request u r s = ⟨.ok none, s, []⟩) ∧
    (u = 0 →
      (handle_request u r s).result ≠ .ok none ∧
      ∀ slv : Nat, handle_request u ⟨slv, r.request⟩ s =
        handle_request u r s) := by
  constructor
  · intro h1 h2
    simp [handle_request, h1, h2]
  · intro h
    subst h
    refine ⟨?_, fun slv => by simp [handle_request]⟩
    simp only [handle_request]
    rw [if_neg (by simp)]
    cases hres : (dispatch_request s r.request).result <;>
      simp [Except.map, hres]

/-- C5 witness. -/
theorem unit_id_filter_behavior_witness :
    handle_request 5 ⟨2, .readCoils 0 1⟩ (ModbusStore.new 2) =
      ⟨.ok none, ModbusStore.new 2, []⟩ :=
  (unit_id_filter_behavior 5 ⟨2, .readCoils 0 1⟩ (ModbusStore.new 2)).1
    (by decide) (by decide)

/-- C10: a Read/Write Multiple Registers request whose write range is in
bounds but whose read range is out of bounds applies the write, emits the
data-changed event, and then fails with `IllegalDataAddress`: the request
fails yet the store is modified and a notification was emitted. -/
theorem read_write_multiple_registers_failed_read_still_writes
    (s : ModbusStore) (u slv readAddr readQty writeAddr : Nat)
    (words : List Nat) (hu : u = 0 ∨ slv = u)
    (hw : writeAddr + words.length ≤ s.holding_registers.length)
    (hr : s.holding_registers.length < readAddr + readQty) :
    handle_request u
        ⟨slv, .readWriteMultipleRegisters readAddr readQty writeAddr words⟩
        s =
      ⟨.error .illegalDataAddress,
       { s with holding_registers :=
           s.holding_registers.take writeAddr ++ words ++
           s.holding_registers.drop (writeAddr + words.length) },
       [⟨.holdingRegisters, writeAddr, words⟩]⟩ := by
  have hguard : ¬(u ≠ 0 ∧ slv ≠ u) := by tauto
  have hlen := splice_length s.holding_registers words writeAddr hw
  have h1 : write_u16s s.holding_registers writeAddr words =
      .ok (s.holding_registers.take writeAddr ++ words ++
           s.holding_registers.drop (writeAddr + words.length),
           words.length % 65536) := by
    rw [write_u16s, if_neg (by omega)]
  have h2 : slice_u16
      (s.holding_registers.take writeAddr ++
        (words ++ s.holding_registers.drop (writeAddr + words.length)))
      readAddr readQty = .error .illegalDataAddress := by
    rw [slice_u16, range,
      if_pos (by rw [← List.append_assoc, hlen]; omega)]
  simp [handle_request, hguard, dispatch_request, h1, h2, Except.map]

/-- C10 witness: in a 4-register store, write `[5]` at 0 and read 10
registers at 0: the write lands and its event is emitted, the call
fails. -/
theorem read_write_multiple_registers_failed_read_still_writes_witness :
    handle_request 0 ⟨1, .readWriteMultipleRegisters 0 10 0 [5]⟩
        (ModbusStore.mk [] [] [] [0, 0, 0, 0]) =
      ⟨.error .illegalDataAddress, ModbusStore.mk [] [] [] [5, 0, 0, 0],
       [⟨.holdingRegisters, 0, [5]⟩]⟩ := by
  have := read_write_multiple_registers_failed_read_still_writes
    (ModbusStore.mk [] [] [] [0, 0, 0, 0]) 0 1 0 10 0 [5]
    (Or.inl rfl) (by decide) (by decide)
  simpa using this

/-! Helper lemmas shared by the event-emission proofs. -/

theorem handle_request_guard_true (u : Nat) (r : SlaveRequest)
    (s : ModbusStore) (h : u ≠ 0 ∧ r.slave ≠ u) :
    handle_request u r s = ⟨.ok none, s, []⟩ := by
  simp [handle_request, h.1, h.2]

theorem handle_request_guard_false (u : Nat) (r : SlaveRequest)
    (s : ModbusStore) (h : ¬(u ≠ 0 ∧ r.slave ≠ u)) :
    handle_request u r s =
      ⟨(dispatch_request s r.request).result.map some,
       (dispatch_request s r.request).store,
       (dispatch_request s r.request).events⟩ := by
  simp [handle_request, h]

theorem write_u16s_error_bound {values data : List Nat} {addr : Nat}
    {e : ExceptionCode} (h : write_u16s values addr data = .error e) :
    values.length < addr + data.length := by
  by_contra hc
  rw [write_u16s, if_neg (by omega)] at h
  cases h

theorem write_u16s_ok_bound {values data : List Nat} {addr : Nat}
    {p : List Nat × Nat} (h : write_u16s values addr data = .ok p) :
    addr + data.length ≤ values.length := by
  by_contra hc
  rw [write_u16s, if_pos (by omega)] at h
  cases h

/-- C6 counterexample: a Read/Write Multiple Registers request whose
write range is in bounds but whose read range is out of bounds fails,
yet one data-changed event was emitted — refuting "failed requests emit
none". -/
theorem failed_request_emits_event_counterexample :
    ((handle_request 0 ⟨1, .readWriteMultipleRegisters 0 10 0 [5]⟩
        (ModbusStore.mk [] [] [] [0, 0, 0, 0])).result =
      .error .illegalDataAddress) ∧
    (handle_request 0 ⟨1, .readWriteMultipleRegisters 0 10 0 [5]⟩
        (ModbusStore.mk [] [] [] [0, 0, 0, 0])).events ≠ [] := by
  decide

/-- C6 (amended): every write operation (single or multiple, coil or
register, mask write, and the combined read/write) that succeeds emits
exactly one data-changed notification carrying the area, the starting
offset and the written values with booleans encoded as 0/1; read
operations and unsupported functions never emit one; silently ignored
requests emit none; and a failed request emits none, except a Read/Write
Multiple Registers request whose write range was in bounds: it emits the
write's notification before failing on the read range. -/
theorem write_event_emission (u : Nat) (r : SlaveRequest)
    (s : ModbusStore) :
    (∀ a q, r.request = .readCoils a q →
      (handle_request u r s).events = []) ∧
    (∀ a q, r.request = .readDiscreteInputs a q →
      (handle_request u r s).events = []) ∧
    (∀ a q, r.request = .readInputRegisters a q →
      (handle_request u r s).events = []) ∧
    (∀ a q, r.request = .readHoldingRegisters a q →
      (handle_request u r s).events = []) ∧
    (∀ a c, r.request = .writeSingleCoil a c →
      (∀ resp, (handle_request u r s).result = .ok (some resp) →
        (handle_request u r s).events =
          [⟨.coils, a, [if c then 1 else 0]⟩]) ∧
      (∀ e, (handle_request u r s).result = .error e →
        (handle_request u r s).events = [])) ∧
    (∀ a data, r.request = .writeMultipleCoils a data →
      (∀ resp, (handle_request u r s).result = .ok (some resp) →
        (handle_request u r s).events = [⟨.coils, a, bools_to_u16 data⟩]) ∧
      (∀ e, (handle_request u r s).result = .error e →
        (handle_request u r s).events = [])) ∧
    (∀ a w, r.request = .writeSingleRegister a w →
      (∀ resp, (handle_request u r s).result = .ok (some resp) →
        (handle_request u r s).events = [⟨.holdingRegisters, a, [w]⟩]) ∧
      (∀ e, (handle_request u r s).result = .error e →
        (handle_request u r s).events = [])) ∧
    (∀ a ws, r.request = .writeMultipleRegisters a ws →
      (∀ resp, (handle_request u r s).result = .ok (some resp) →
        (handle_request u r s).events = [⟨.holdingRegisters, a, ws⟩]) ∧
      (∀ e, (handle_request u r s).result = .error e →
        (handle_request u r s).events = [])) ∧
    (∀ a m1 m2, r.request = .maskWriteRegister a m1 m2 →
      (∀ resp, (handle_request u r s).result = .ok (some resp) →
        ∃ current, read_single_u16 s.holding_registers a = .ok current ∧
          (handle_request u r s).events =
            [⟨.holdingRegisters, a, [(current &&& m1) ||| m2]⟩]) ∧
      (∀ e, (handle_request u r s).result = .error e →
        (handle_request u r s).events = [])) ∧
    (∀ ra rq wa ws,
      r.request = .readWriteMultipleRegisters ra rq wa ws →
      (∀ resp, (handle_request u r s).result = .ok (some resp) →
        (handle_request u r s).events = [⟨.holdingRegisters, wa, ws⟩]) ∧
      (∀ e, (handle_request u r s).result = .error e →
        (wa + ws.length ≤ s.holding_registers.length ∧
          (handle_request u r s).events =
            [⟨.holdingRegisters, wa, ws⟩]) ∨
        (s.holding_registers.length < wa + ws.length ∧
          (handle_request u r s).events = []))) ∧
    ((r.request = .reportServerId ∨
      (∃ a b, r.request = .readDeviceIdentification a b) ∨
      (∃ c d, r.request = .custom c d)) →
      (handle_request u r s).events = []) ∧
    ((handle_request u r s).result = .ok none →
      (handle_request u r s).events = []) := by
  obtain ⟨slv, req⟩ := r
  by_cases hg : u ≠ 0 ∧ slv ≠ u
  · rw [handle_request_guard_true u ⟨slv, req⟩ s hg]
    refine ⟨fun a q h => rfl, fun a q h => rfl, fun a q h => rfl,
      fun a q h => rfl, ?_, ?_, ?_, ?_, ?_, ?_, fun h => rfl, fun h => rfl⟩
    · exact fun a c h =>
        ⟨fun resp hr => (by cases hr), fun e he => (by cases he)⟩
    · exact fun a d h =>
        ⟨fun resp hr => (by cases hr), fun e he => (by cases he)⟩
    · exact fun a w h =>
        ⟨fun resp hr => (by cases hr), fun e he => (by cases he)⟩
    · exact fun a w h =>
        ⟨fun resp hr => (by cases hr), fun e he => (by cases he)⟩
    · exact fun a m n h =>
        ⟨fun resp hr => (by cases hr), fun e he => (by cases he)⟩
    · exact fun ra rq wa ws h =>
        ⟨fun resp hr => (by cases hr), fun e he => (by cases he)⟩
  · rw [handle_request_guard_false u ⟨slv, req⟩ s hg]
    refine ⟨?_, ?_, ?_, ?_, ?_, ?_, ?_, ?_, ?_, ?_, ?_, ?_⟩
    · rintro a q rfl
      cases hsl : slice_bool s.coils a q <;> simp [dispatch_request, hsl]
    · rintro a q rfl
      cases hsl : slice_bool s.discrete_inputs a q <;>
        simp [dispatch_request, hsl]
    · rintro a q rfl
      cases hsl : slice_u16 s.input_registers a q <;>
        simp [dispatch_request, hsl]
    · rintro a q rfl
      cases hsl : slice_u16 s.holding_registers a q <;>
        simp [dispatch_request, hsl]
    · rintro a c rfl
      cases hwb : write_bool s.coils a c <;>
        exact ⟨fun resp hr => by simp_all [dispatch_request, hwb, Except.map],
               fun e he => by simp_all [dispatch_request, hwb, Except.map]⟩
    · rintro a data rfl
      cases hwb : write_bools s.coils a data <;>
        exact ⟨fun resp hr => by simp_all [dispatch_request, hwb, Except.map],
               fun e he => by simp_all [dispatch_request, hwb, Except.map]⟩
    · rintro a w rfl
      cases hwu : write_u16 s.holding_registers a w <;>
        exact ⟨fun resp hr => by simp_all [dispatch_request, hwu, Except.map],
               fun e he => by simp_all [dispatch_request, hwu, Except.map]⟩
    · rintro a ws rfl
      cases hwu : write_u16s s.holding_registers a ws <;>
        exact ⟨fun resp hr => by simp_all [dispatch_request, hwu, Except.map],
               fun e he => by simp_all [dispatch_request, hwu, Except.map]⟩
    · rintro a m1 m2 rfl
      cases hcur : read_single_u16 s.holding_registers a with
      | error e =>
        exact ⟨fun resp hr => by simp_all [dispatch_request, hcur, Except.map],
               fun e' he => by simp_all [dispatch_request, hcur, Except.map]⟩
      | ok current =>
        cases hwu : write_u16 s.holding_registers a
            ((current &&& m1) ||| m2) with
        | error e =>
          exact ⟨fun resp hr => by
                   simp_all [dispatch_request, hcur, hwu, Except.map],
                 fun e' he => by
                   simp_all [dispatch_request, hcur, hwu, Except.map]⟩
        | ok regs =>
          refine ⟨fun resp hr => ⟨current, rfl, ?_⟩, fun e' he => ?_⟩
          · simp [dispatch_request, hcur, hwu, Except.map]
          · simp_all [dispatch_request, hcur, hwu, Except.map]
    · rintro ra rq wa ws rfl
      cases hw1 : write_u16s s.holding_registers wa ws with
      | error e =>
        refine ⟨fun resp hr => by
                  simp_all [dispatch_request, hw1, Except.map],
                fun e' he => Or.inr ⟨write_u16s_error_bound hw1, ?_⟩⟩
        simp [dispatch_request, hw1, Except.map]
      | ok p =>
        obtain ⟨regs, cnt⟩ := p
        cases hs2 : slice_u16 regs ra rq with
        | error e =>
          refine ⟨fun resp hr => by
                    simp_all [dispatch_request, hw1, hs2, Except.map],
                  fun e' he => Or.inl ⟨write_u16s_ok_bound hw1, ?_⟩⟩
          simp [dispatch_request, hw1, hs2, Except.map]
        | ok values =>
          refine ⟨fun resp hr => ?_,
                  fun e' he => by
                    simp_all [dispatch_request, hw1, hs2, Except.map]⟩
          simp [dispatch_request, hw1, hs2, Except.map]
    · rintro (rfl | ⟨a, b, rfl⟩ | ⟨c, d, rfl⟩) <;> simp [dispatch_request]
    · intro h
      cases hres : (dispatch_request s req).result <;>
        simp_all [Except.map, hres]

/-- C6 (amended) witness: a successful Write Multiple Coils emits exactly
one event, with the booleans encoded as 0/1. -/
theorem write_event_emission_witness :
    (handle_request 0 ⟨1, .writeMultipleCoils 0 [true, false]⟩
        (ModbusStore.new 2)).events = [⟨.coils, 0, [1, 0]⟩] := by
  have := ((write_event_emission 0 ⟨1, .writeMultipleCoils 0 [true, false]⟩
    (ModbusStore.new 2)).2.2.2.2.2.1 0 [true, false] rfl).1
    (.writeMultipleCoils 0 2) (by decide)
  simpa [bools_to_u16] using this

/-! Embedding of the server runtime controller (`src-tauri/src/lib.rs`):
the sequential denotation of `server_start`, `server_stop` and
`build_status`, and of the connection admission/teardown bookkeeping. -/

/-- `ServerStatus` (lib.rs lines 35-41). -/
structure ServerStatus where
  running : Bool
  bind : String
  connections : Nat
  last_error : Option String
  deriving DecidableEq, Repr

/-- `RuntimeState` (lib.rs lines 28-33): the observable fields of the
runtime record (the cancellation token and task handle carry no state
visible to the claims). -/
structure RuntimeState where
  bind : String
  connections : Nat
  deriving DecidableEq, Repr

/-- `ServerRuntimeState` (lib.rs lines 22-26). -/
structure ServerRuntimeState where
  runtime : Option RuntimeState
  last_error : Option String
  deriving DecidableEq, Repr

/-- `build_status` (lib.rs lines 343-359). -/
def build_status (st : ServerRuntimeState) : ServerStatus :=
  match st.runtime with
  | some runtime => ⟨true, runtime.bind, runtime.connections, st.last_error⟩
  | none => ⟨false, "", 0, st.last_error⟩

/-- Outcome of one `server_start` call: the returned value, the runtime
state afterwards, whether an accept-loop task was spawned, and the
`modbus://status` events emitted during the call. -/
structure StartOutcome where
  result : Except String ServerStatus
  state : ServerRuntimeState
  spawned : Bool
  events : List ServerStatus
  deriving DecidableEq, Repr

/-- `server_start` (lib.rs lines 64-158), sequential denotation.
`addrParse` stands for the result of `format!("{}:{}", host, port)
.parse()` and `bindResult` for `TcpListener::bind` (carrying the
resolved local address on success); both are environment inputs.  If a
runtime already exists the call returns the current status unchanged;
otherwise `last_error` is cleared, the address is parsed, the socket is
bound (a failure is recorded, emitted and returned), and on success the
accept loop is spawned, the runtime record is installed with a fresh
connection counter at 0, and the new status is emitted and returned. -/
def server_start (addrParse : Except String Unit)
    (bindResult : Except String String) (st : ServerRuntimeState) :
    StartOutcome :=
  if st.runtime.isSome then ⟨.ok (build_status st), st, false, []⟩
  else
    let st1 : ServerRuntimeState := { st with last_error := none }
    match addrParse with
    | .error e => ⟨.error e, st1, false, []⟩
    | .ok _ =>
      match bindResult with
      | .error e =>
        let st2 : ServerRuntimeState := { st1 with last_error := some e }
        ⟨.error e, st2, false, [build_status st2]⟩
      | .ok bind =>
        let st3 : ServerRuntimeState :=
          { st1 with runtime := some ⟨bind, 0⟩ }
        ⟨.ok (build_status st3), st3, true, [build_status st3]⟩

/-- Outcome of one `server_stop` call. -/
structure StopOutcome where
  result : Except String ServerStatus
  state : ServerRuntimeState
  events : List ServerStatus
  deriving DecidableEq, Repr

/-- `server_stop` (lib.rs lines 161-182): takes the runtime record (if
any), cancels and aborts it, then builds, emits and returns the status
of the now-stopped state.  `last_error` is not touched. -/
def server_stop (st : ServerRuntimeState) : StopOutcome :=
  let st1 : ServerRuntimeState := { st with runtime := none }
  ⟨.ok (build_status st1), st1, [build_status st1]⟩

/-- `server_status` (lib.rs lines 185-191). -/
def server_status (st : ServerRuntimeState) : Except String ServerStatus :=
  .ok (build_status st)

/-- Connection admission as implemented by the `on_connected` closure
(lib.rs lines 108-115): the shared counter is incremented and the
wrapped service is handed back; no status notification is triggered
(nothing in the closure emits, and the `ConnectionService::new` call
site passes no `on_status_update` callback).  Returns the new counter
value and the number of status notifications triggered. -/
def connection_admit (connections : Nat) : Nat × Nat :=
  (connections + 1, 0)

/-- Connection teardown (`impl Drop for ConnectionService`, modbus.rs
lines 81-86): decrements the shared counter and invokes
`on_status_update` exactly once.  Teardown only follows a matching
admission, so `Nat` subtraction is the exact denotation of
`fetch_sub`. -/
def connection_release (connections : Nat) : Nat × Nat :=
  (connections - 1, 1)

/-- C7: `start` while the server is already running returns the current
status (running, the existing bind address, not an error), leaves the
state unchanged, spawns no second accept loop, and emits no event. -/
theorem start_while_running_noop (addrParse : Except String Unit)
    (bindResult : Except String String) (st : ServerRuntimeState)
    (rt : RuntimeState) (h : st.runtime = some rt) :
    server_start addrParse bindResult st =
      ⟨.ok ⟨true, rt.bind, rt.connections, st.last_error⟩, st, false,
       []⟩ := by
  simp [server_start, h, build_status]

/-- C7 witness. -/
theorem start_while_running_noop_witness :
    server_start (.ok ()) (.ok "127.0.0.1:5020")
        ⟨some ⟨"127.0.0.1:5020", 2⟩, none⟩ =
      ⟨.ok ⟨true, "127.0.0.1:5020", 2, none⟩,
       ⟨some ⟨"127.0.0.1:5020", 2⟩, none⟩, false, []⟩ :=
  start_while_running_noop (.ok ()) (.ok "127.0.0.1:5020")
    ⟨some ⟨"127.0.0.1:5020", 2⟩, none⟩ ⟨"127.0.0.1:5020", 2⟩ rfl

/-- C8: evaluating the connection bookkeeping at one accepted
connection: admission increments the shared counter by one but triggers
zero status notifications (the claim expects exactly one per admit);
teardown decrements by one and triggers exactly one. -/
theorem connection_admit_no_notification :
    connection_admit 0 = (1, 0) ∧ connection_release 1 = (0, 1) := by
  decide

/-- C9 counterexample: with a recorded last error and the server
stopped, a start whose host:port string fails to parse returns the parse
error — an unsuccessful start — yet the recorded error has been cleared,
refuting "cleared only by the next successful start". -/
theorem failed_start_clears_last_error_counterexample :
    (server_start (.error "invalid socket address") (.ok "x")
        ⟨none, some "boom"⟩).result = .error "invalid socket address" ∧
    (server_start (.error "invalid socket address") (.ok "x")
        ⟨none, some "boom"⟩).state.last_error = none ∧
    (server_start (.error "invalid socket address") (.ok "x")
        ⟨none, some "boom"⟩).state.last_error ≠ some "boom" := by
  decide

/-- C9 (amended): the last recorded error persists across `stop` and
across `start` calls made while the server is running, but any start
attempt that finds the server stopped clears it first — even if the
attempt then fails (a parse failure leaves it cleared; a bind failure
replaces it with the bind error).  A bind failure records the error,
emits exactly one status event carrying it, reports the error to the
caller, and leaves the state stopped; a successful start leaves the
error cleared. -/
theorem last_error_lifecycle (st : ServerRuntimeState) :
    ((server_stop st).state.last_error = st.last_error) ∧
    (∀ p b rt, st.runtime = some rt → (server_start p b st).state = st) ∧
    (∀ e b, st.runtime = none →
      (server_start (.error e) b st).result = .error e ∧
      (server_start (.error e) b st).state.last_error = none ∧
      (server_start (.error e) b st).state.runtime = none ∧
      (server_start (.error e) b st).events = []) ∧
    (∀ e, st.runtime = none →
      (server_start (.ok ()) (.error e) st).result = .error e ∧
      (server_start (.ok ()) (.error e) st).state = ⟨none, some e⟩ ∧
      (server_start (.ok ()) (.error e) st).events =
        [⟨false, "", 0, some e⟩] ∧
      (server_start (.ok ()) (.error e) st).spawned = false) ∧
    (∀ bind, st.runtime = none →
      (server_start (.ok ()) (.ok bind) st).state.last_error = none ∧
      (server_start (.ok ()) (.ok bind) st).state.runtime =
        some ⟨bind, 0⟩) := by
  refine ⟨by simp [server_stop], ?_, ?_, ?_, ?_⟩
  · intro p b rt h
    simp [server_start, h]
  · intro e b h
    refine ⟨?_, ?_, ?_, ?_⟩ <;> simp [server_start, h]
  · intro e h
    refine ⟨?_, ?_, ?_, ?_⟩ <;> simp [server_start, h, build_status]
  · intro bind h
    exact ⟨by simp [server_start, h], by simp [server_start, h]⟩

/-- C9 (amended) witness: a bind failure overwrites the old recorded
error and a stop preserves the recorded error. -/
theorem last_error_lifecycle_witness :
    (server_start (.ok ()) (.error "bind failed")
        ⟨none, some "old"⟩).state = ⟨none, some "bind failed"⟩ ∧
    (server_stop ⟨none, some "old"⟩).state.last_error = some "old" :=
  ⟨((last_error_lifecycle ⟨none, some "old"⟩).2.2.2.1 "bind failed"
      rfl).2.1,
   (last_error_lifecycle ⟨none, some "old"⟩).1⟩

end Modbus
